import Mathlib

/-!
# px4esc board support: integrity hook, critical sections, status model

A shallow embedding of `firmware/src/board/board.cpp` and
`firmware/src/board/motor.hpp`.

Conventions of the embedding:

* a value of the unsigned `w`-bit type `TimeType` is a natural number below `2 ^ w`;
  every C++ operation on it is followed by an explicit reduction modulo `2 ^ w`;
* code that can stop the firmware (`assert`, `ASSERT_ALWAYS`, `System::halt`, `die`)
  returns in `Except`, the error saying which stop was taken;
* hardware registers are fields of an explicit state record.
-/

namespace board

/-! ## Tick-deadline check (`board.cpp`, block guarded by `CH_CFG_ST_TIMEDELTA > 0`) -/

/-- The value `std::numeric_limits<TimeType>::max()` of the `w`-bit unsigned type. -/
def TimeType_max (w : Nat) : Nat := 2 ^ w - 1

/-- The constant `HalfRange = std::numeric_limits<TimeType>::max() / 2`. -/
def HalfRange (w : Nat) : Nat := TimeType_max w / 2

/-- Unsigned `w`-bit addition, `TimeType(a + b)`. -/
def wrapAdd (w a b : Nat) : Nat := (a + b) % 2 ^ w

/-- Unsigned `w`-bit subtraction, `TimeType(a - b)`, for operands below `2 ^ w`. -/
def wrapSub (w a b : Nat) : Nat := (a + (2 ^ w - b)) % 2 ^ w

/-- Ways in which the firmware stops instead of returning. -/
inductive Failure where
  /-- The `n`-th `ASSERT_ALWAYS` of the hook did not hold. -/
  | assertAlways (n : Nat)
  /-- Call of `System::halt` with `OS TIMER DEADLINE MISSED: CNT=<cnt> ALARM=<alarm>`. -/
  | deadlineMissed (cnt alarm : Nat)
  /-- A plain `assert` did not hold. -/
  | assertion
  /-- Call of `die(reason)`. -/
  | die (reason : Int)
  deriving DecidableEq, Repr

/-- The value `alarm_with_offset = real_alarm + DetectionThreshold`. -/
def alarm_with_offset (w DetectionThreshold real_alarm : Nat) : Nat :=
  wrapAdd w real_alarm DetectionThreshold

/-- The value `TimeType(alarm_with_offset - counter)` that is compared with `HalfRange`. -/
def deadlineDelta (w DetectionThreshold counter real_alarm : Nat) : Nat :=
  wrapSub w (alarm_with_offset w DetectionThreshold real_alarm) counter

/-- The block of `fastLowLevelSystemIntegrityCheckHook` that compares the alarm with the
counter.  `DetectionThreshold` is the constant `S2ST(2)`, whose value is fixed by the
kernel configuration; `counter` and `real_alarm` are the values read from the timer. -/
def tickDeadlineCheck (w DetectionThreshold counter real_alarm : Nat) : Except Failure Unit :=
  if deadlineDelta w DetectionThreshold counter real_alarm ≥ HalfRange w then
    .error (.deadlineMissed counter real_alarm)
  else
    .ok ()

/-- Whether the block halts the system. -/
def tickDeadlineHalts (w DetectionThreshold counter real_alarm : Nat) : Bool :=
  match tickDeadlineCheck w DetectionThreshold counter real_alarm with
  | .error _ => true
  | .ok _ => false

/-! ## Processor interrupt masks -/

/-- Modelled from the spec: the processor state behind the CMSIS intrinsics
`__get_PRIMASK`, `__get_FAULTMASK`, `__disable_irq` and `__enable_irq`, which are not
among the sources.  `PRIMASK` is the global interrupt-disable flag, `FAULTMASK` the flag
that also masks faults, `BASEPRI` the priority mask used by the kernel. -/
structure Cpu where
  PRIMASK : Bool
  FAULTMASK : Bool
  BASEPRI : Nat
  deriving DecidableEq, Repr

/-- Modelled from the spec: the intrinsic `__get_PRIMASK()`, the register read as an
unsigned word whose bit 0 is the flag. -/
def get_PRIMASK (cpu : Cpu) : Nat := if cpu.PRIMASK then 1 else 0

/-- Modelled from the spec: the intrinsic `__get_FAULTMASK()`. -/
def get_FAULTMASK (cpu : Cpu) : Nat := if cpu.FAULTMASK then 1 else 0

/-- Modelled from the spec: the intrinsic `__disable_irq()`, which disables all maskable
interrupts by setting the flag. -/
def disable_irq (cpu : Cpu) : Cpu := { cpu with PRIMASK := true }

/-- Modelled from the spec: the intrinsic `__enable_irq()`, which clears the flag. -/
def enable_irq (cpu : Cpu) : Cpu := { cpu with PRIMASK := false }

/-! ## `fastLowLevelSystemIntegrityCheckHook` (`board.cpp`) -/

/-- The hardware the hook looks at: the processor masks and the system timer, whose
counter and alarm registers are read by `st_lld_get_counter()` and `st_lld_get_alarm()`. -/
structure Hw where
  cpu : Cpu
  st_counter : Nat
  st_alarm : Nat
  deriving DecidableEq, Repr

/-- The `n`-th `ASSERT_ALWAYS(c)` of the hook: stops the firmware unless `c` holds. -/
def ASSERT_ALWAYS (n : Nat) (c : Bool) : Except Failure Unit :=
  if c then .ok () else .error (.assertAlways n)

/-- The function `fastLowLevelSystemIntegrityCheckHook`.  `CH_CFG_ST_TIMEDELTA` is the
kernel configuration value that guards the deadline block at build time. -/
def fastLowLevelSystemIntegrityCheckHook (w CH_CFG_ST_TIMEDELTA DetectionThreshold : Nat)
    (hw : Hw) : Except Failure Unit := do
  ASSERT_ALWAYS 1 ((get_PRIMASK hw.cpu &&& 1) == 0)
  ASSERT_ALWAYS 2 ((get_FAULTMASK hw.cpu &&& 1) == 0)
  if CH_CFG_ST_TIMEDELTA > 0 then
    let counter := hw.st_counter
    let real_alarm := hw.st_alarm
    tickDeadlineCheck w DetectionThreshold counter real_alarm
  else
    pure ()

/-! ## `board::init` and `board::die` (`board.cpp`) -/

/-- The watchdog handle `os::watchdog::Timer`; `started` holds the timeout it was
started with, if it was started. -/
structure Timer where
  started : Option Nat := none
  deriving DecidableEq, Repr

/-- The method `os::watchdog::Timer::startMSec`. -/
def Timer.startMSec (self : Timer) (timeout_msec : Nat) : Timer :=
  { self with started := some timeout_msec }

/-- The function `board::die`: halts with the reason and never returns. -/
def die {α : Type} (reason : Int) : Except Failure α := .error (.die reason)

/-- The function `board::init`.  `config_init` is the value that
`os::config::init(&cfg_backend)` returns. -/
def init (watchdog_timeout_msec : Nat) (config_init : Int) : Except Failure Timer := do
  let wdt : Timer := {}
  let wdt := wdt.startMSec watchdog_timeout_msec
  let config_init_res := config_init
  if config_init_res < 0 then
    (die config_init_res : Except Failure Unit)
  return wdt

/-! ## `board::tryReadDeviceSignature` (`board.cpp`) -/

/-- The loop `for (auto x : out_sign)` with its early `return true`. -/
def tryReadDeviceSignature.scan : List Nat → Bool
  | [] => false
  | x :: rest => if x != 0xFF && x != 0x00 then true else tryReadDeviceSignature.scan rest

/-- The function `tryReadDeviceSignature`: copies `size` bytes of the storage into
`out_sign` and scans them.  Returns the result together with `out_sign`. -/
def tryReadDeviceSignature (DeviceSignatureStorage : Nat → Nat) (size : Nat) :
    Bool × List Nat :=
  let out_sign := (List.range size).map DeviceSignatureStorage
  (tryReadDeviceSignature.scan out_sign, out_sign)

end board

namespace board.motor

/-! ## `Status` (`motor.hpp`) -/

/-- The record `board::motor::Status`. -/
structure Status where
  inverter_temperature : Float := 0.0
  inverter_voltage : Float := 0.0
  phase_current_zero_offset : Float × Float
  power_ok : Bool := false
  overload : Bool := false
  fault : Bool := false

/-- The method `Status::isOkay`. -/
def Status.isOkay (self : Status) : Bool :=
  let bad := (!self.power_ok) || self.overload || self.fault
  !bad

/-! ## `AbsoluteCriticalSectionLocker` (`motor.hpp`) -/

/-- The class `AbsoluteCriticalSectionLockerImpl_`, which has no data members. -/
structure AbsoluteCriticalSectionLockerImpl_ where
  deriving DecidableEq, Repr

/-- The intrinsics that the constructor of the locker calls. -/
inductive Intrinsic where
  | get_PRIMASK
  | disable_irq
  deriving DecidableEq, Repr

/-- The processor together with the record of the intrinsics that were executed on it,
oldest first. -/
structure Exec where
  cpu : Cpu
  executed : List Intrinsic
  deriving DecidableEq, Repr

/-- A call of `__get_PRIMASK()`: the value read, and the call recorded. -/
def call_get_PRIMASK (m : Exec) : Nat × Exec :=
  (get_PRIMASK m.cpu, { m with executed := m.executed ++ [Intrinsic.get_PRIMASK] })

/-- A call of `__disable_irq()`: the flag set, and the call recorded. -/
def call_disable_irq (m : Exec) : Exec :=
  { cpu := disable_irq m.cpu, executed := m.executed ++ [Intrinsic.disable_irq] }

/-- The standard macro `assert(c)`.  In a build that defines `NDEBUG` it expands to
nothing and `c` is not evaluated; otherwise `c` is evaluated and the firmware stops
unless it holds. -/
def assert (NDEBUG : Bool) (c : Exec → Bool × Exec) (m : Exec) : Except Failure Unit × Exec :=
  if NDEBUG then
    (.ok (), m)
  else
    match c m with
    | (true, m1) => (.ok (), m1)
    | (false, m1) => (.error .assertion, m1)

/-- The constructor of `AbsoluteCriticalSectionLockerImpl_`: returns the outcome, the
processor state it leaves and the intrinsics it executed. -/
def AbsoluteCriticalSectionLockerImpl_.ctor (NDEBUG : Bool) (m : Exec) :
    Except Failure AbsoluteCriticalSectionLockerImpl_ × Exec :=
  match assert NDEBUG (fun m0 => ((call_get_PRIMASK m0).1 == 0, (call_get_PRIMASK m0).2)) m with
  | (.error e, m1) => (.error e, m1)
  | (.ok _, m1) => (.ok {}, call_disable_irq m1)

/-- The destructor of `AbsoluteCriticalSectionLockerImpl_`. -/
def AbsoluteCriticalSectionLockerImpl_.dtor (_self : AbsoluteCriticalSectionLockerImpl_)
    (cpu : Cpu) : Cpu :=
  enable_irq cpu

/-! ## Driver activation and calibration (`motor.hpp` declares, `motor.cpp` defines) -/

/-- Modelled from the spec: the Motor Driver State of the data model (`active`,
`calibrating`, `zero_offset`, the latest measurements), with the activation state that
`beginCalibration` has to remember in order to restore it.  The file `motor.cpp` that
defines the driver is not among the sources. -/
structure DriverState where
  active : Bool := false
  calibrating : Bool := false
  zero_offset : Float × Float
  phase_currents_ab : Float × Float
  inverter_voltage : Float
  active_before_calibration : Bool := false

/-- Modelled from the spec: `setActive(active)` arms or disarms the power stage. -/
def setActive (active : Bool) (s : DriverState) : DriverState :=
  { s with active := active }

/-- Modelled from the spec: `isActive()` is the current activation flag. -/
def isActive (s : DriverState) : Bool := s.active

/-- Modelled from the spec: `isCalibrationInProgress()`. -/
def isCalibrationInProgress (s : DriverState) : Bool := s.calibrating

/-- Modelled from the spec: `beginCalibration()` enters the calibrating state and
remembers the activation state that existed before.  The spec leaves open whether the
power stage is armed while the calibration runs; `active_during` is that choice. -/
def beginCalibration (active_during : Bool) (s : DriverState) : DriverState :=
  { s with
    active_before_calibration := isActive s
    active := active_during
    calibrating := true }

/-- A measurement delivered to the main handler: the phase currents and the inverter
voltage. -/
structure Sample where
  phase_currents_ab : Float × Float
  inverter_voltage : Float

/-- Modelled from the spec: the real-time handlers update instantaneous measurements but
not the activation and calibration flags. -/
def handleMainIRQ (s : DriverState) (m : Sample) : DriverState :=
  { s with phase_currents_ab := m.phase_currents_ab, inverter_voltage := m.inverter_voltage }

/-- Modelled from the spec: completion of the calibration captures the new zero-offset
baseline, then restores the activation state that existed before the calibration
started. -/
def completeCalibration (baseline : Float × Float) (s : DriverState) : DriverState :=
  if s.calibrating then
    { s with
      zero_offset := baseline
      active := s.active_before_calibration
      calibrating := false }
  else
    s

/-- Modelled from the spec: a whole calibration, from `beginCalibration()` over the
handler invocations that happen while it is in progress to its completion. -/
def calibrate (active_during : Bool) (samples : List Sample) (baseline : Float × Float)
    (s : DriverState) : DriverState :=
  completeCalibration baseline (samples.foldl handleMainIRQ (beginCalibration active_during s))

end board.motor

namespace board

/-! ## Arithmetic of the wrapping operations -/

theorem mod_of_lt_two_mul (N x : Nat) (h : x < 2 * N) :
    x % N = if x < N then x else x - N := by
  split
  · next hx => exact Nat.mod_eq_of_lt hx
  · next hx =>
    have hx2 : N ≤ x := Nat.le_of_not_lt hx
    rw [Nat.mod_eq_sub_mod hx2]
    exact Nat.mod_eq_of_lt (by omega)

theorem two_pow_pred (w : Nat) (hw : 1 ≤ w) : 2 ^ w = 2 * 2 ^ (w - 1) := by
  obtain ⟨k, rfl⟩ : ∃ k, w = k + 1 := ⟨w - 1, by omega⟩
  simp [pow_succ, Nat.mul_comm]

theorem HalfRange_eq (w : Nat) (hw : 1 ≤ w) : HalfRange w = 2 ^ (w - 1) - 1 := by
  have h := two_pow_pred w hw
  have hp : 0 < 2 ^ (w - 1) := Nat.pos_pow_of_pos _ (by decide)
  unfold HalfRange TimeType_max
  omega

theorem tickDeadlineHalts_iff (w T C A : Nat) :
    tickDeadlineHalts w T C A = true ↔ HalfRange w ≤ deadlineDelta w T C A := by
  unfold tickDeadlineHalts tickDeadlineCheck
  by_cases h : deadlineDelta w T C A ≥ HalfRange w
  · simp [h]
  · simp [h]

theorem wrapSub_cast (w a c : Nat) (hc : c < 2 ^ w) :
    ((wrapSub w a c : Nat) : Int) = ((a : Int) - (c : Int)) % ((2 : Int) ^ w) := by
  unfold wrapSub
  have h1 : ((2 ^ w - c : Nat) : Int) = (2 : Int) ^ w - (c : Int) := by
    rw [Nat.cast_sub (Nat.le_of_lt hc)]
    simp
  rw [Int.natCast_mod, Nat.cast_add, h1]
  have h2 : (a : Int) + ((2 : Int) ^ w - (c : Int)) = ((a : Int) - (c : Int)) + (2 : Int) ^ w := by
    ring
  simp [h2]

theorem deadlineDelta_unfold (w T C A : Nat) (hT : T < 2 ^ w) (hC : C < 2 ^ w)
    (hA : A < 2 ^ w) :
    deadlineDelta w T C A =
      (if (if A + T < 2 ^ w then A + T else A + T - 2 ^ w) + (2 ^ w - C) < 2 ^ w
        then (if A + T < 2 ^ w then A + T else A + T - 2 ^ w) + (2 ^ w - C)
        else (if A + T < 2 ^ w then A + T else A + T - 2 ^ w) + (2 ^ w - C) - 2 ^ w) := by
  unfold deadlineDelta alarm_with_offset wrapAdd wrapSub
  have h1 := mod_of_lt_two_mul (2 ^ w) (A + T) (by omega)
  rw [h1]
  have h2 : (if A + T < 2 ^ w then A + T else A + T - 2 ^ w) < 2 ^ w := by
    split <;> omega
  exact mod_of_lt_two_mul (2 ^ w) _ (by omega)

theorem wrapSub_unfold (w a b : Nat) (ha : a < 2 ^ w) (hb : b < 2 ^ w) :
    wrapSub w a b = if b ≤ a then a - b else a + 2 ^ w - b := by
  unfold wrapSub
  rw [mod_of_lt_two_mul (2 ^ w) _ (by omega)]
  split <;> split <;> omega

/-! ## The tick-deadline check -/

/-- C1 (as stated, refuted): with a 32-bit counter, threshold 2, counter 0 and alarm
`2 ^ 31 - 3` the wrapped difference is `2 ^ 31 - 1`, below `2 ^ 31`, yet the check halts. -/
theorem tickDeadline_halts_below_two_pow :
    deadlineDelta 32 2 0 2147483645 = 2147483647 ∧
      tickDeadlineCheck 32 2 0 2147483645 = .error (.deadlineMissed 0 2147483645) ∧
      ¬ (tickDeadlineHalts 32 2 0 2147483645 = true ↔
          2 ^ (32 - 1) ≤ deadlineDelta 32 2 0 2147483645) := by
  refine ⟨by decide, by rfl, by decide⟩

/-- C1 (amended): the check halts exactly when the wrapped difference
`delta = ((A + threshold) mod 2 ^ w - C) mod 2 ^ w` is at least
`HalfRange = max(TimeType) / 2 = 2 ^ (w - 1) - 1`. -/
theorem tickDeadline_halts_iff_delta_ge_HalfRange (w T C A : Nat) (hw : 1 ≤ w)
    (hC : C < 2 ^ w) :
    (tickDeadlineHalts w T C A = true ↔
      (2 : Int) ^ (w - 1) - 1 ≤ ((((A + T) % 2 ^ w : Nat) : Int) - (C : Int)) % (2 : Int) ^ w) ∧
    (tickDeadlineHalts w T C A = true ↔
      tickDeadlineCheck w T C A = .error (.deadlineMissed C A)) ∧
    HalfRange w = 2 ^ (w - 1) - 1 := by
  have hH := HalfRange_eq w hw
  have hp : 0 < 2 ^ (w - 1) := Nat.pos_pow_of_pos _ (by decide)
  refine ⟨?_, ?_, hH⟩
  · rw [tickDeadlineHalts_iff, ← wrapSub_cast w _ C hC, hH]
    unfold deadlineDelta alarm_with_offset wrapAdd
    have hcast : ((2 : Int) ^ (w - 1)) = ((2 ^ (w - 1) : Nat) : Int) := by simp
    rw [hcast]
    omega
  · unfold tickDeadlineHalts tickDeadlineCheck
    by_cases h : deadlineDelta w T C A ≥ HalfRange w <;> simp [h]

/-- Witness of C1 (amended) on a 32-bit counter whose alarm lies one tick behind. -/
theorem tickDeadline_halts_iff_delta_ge_HalfRange_witness :
    1 ≤ 32 ∧ 1000 < 2 ^ 32 ∧
    ((tickDeadlineHalts 32 2 1000 999 = true ↔
      (2 : Int) ^ (32 - 1) - 1 ≤
        ((((999 + 2) % 2 ^ 32 : Nat) : Int) - ((1000 : Nat) : Int)) % (2 : Int) ^ 32) ∧
    (tickDeadlineHalts 32 2 1000 999 = true ↔
      tickDeadlineCheck 32 2 1000 999 = .error (.deadlineMissed 1000 999)) ∧
    HalfRange 32 = 2 ^ (32 - 1) - 1) :=
  ⟨by decide, by decide,
    tickDeadline_halts_iff_delta_ge_HalfRange 32 2 1000 999 (by decide) (by decide)⟩

/-- C2 (as stated, refuted): counter 1000, alarm 999.  The alarm elapsed one tick ago
(`e = 1`, between 0 and `2 ^ 31`), and the check does not halt, neither with a threshold of
two ticks nor with a threshold of 20000 ticks. -/
theorem tickDeadline_elapsed_alarm_not_reported :
    wrapSub 32 1000 999 = 1 ∧ 0 < wrapSub 32 1000 999 ∧ wrapSub 32 1000 999 < 2 ^ (32 - 1) ∧
      tickDeadlineHalts 32 2 1000 999 = false ∧
      tickDeadlineCheck 32 2 1000 999 = .ok () ∧
      tickDeadlineHalts 32 20000 1000 999 = false ∧
      tickDeadlineHalts 16 2 1000 999 = false := by
  refine ⟨by decide, by decide, by decide, by decide, by rfl, by decide, by decide⟩

/-- C2 (amended): for an alarm that elapsed `e = (C - A) mod 2 ^ w` ticks ago with
`0 < e < 2 ^ (w - 1)`, the check halts exactly when `e` exceeds the threshold (or the
threshold is so large that `threshold - e` reaches `HalfRange`). -/
theorem tickDeadline_elapsed_halts_iff (w T C A : Nat) (hw : 1 ≤ w) (hT : T < 2 ^ w)
    (hC : C < 2 ^ w) (hA : A < 2 ^ w)
    (he0 : 0 < wrapSub w C A) (he : wrapSub w C A < 2 ^ (w - 1)) :
    tickDeadlineHalts w T C A = true ↔
      (T < wrapSub w C A ∨ HalfRange w ≤ T - wrapSub w C A) := by
  have hH := HalfRange_eq w hw
  have h2 := two_pow_pred w hw
  rw [tickDeadlineHalts_iff, deadlineDelta_unfold w T C A hT hC hA, hH]
  rw [wrapSub_unfold w C A hC hA] at he0 he ⊢
  split_ifs at he0 he ⊢ <;> omega

/-- Witness of C2 (amended): 32-bit counter 1000, alarm 990, threshold 2. -/
theorem tickDeadline_elapsed_halts_iff_witness :
    1 ≤ 32 ∧ 2 < 2 ^ 32 ∧ 1000 < 2 ^ 32 ∧ 990 < 2 ^ 32 ∧
    0 < wrapSub 32 1000 990 ∧ wrapSub 32 1000 990 < 2 ^ (32 - 1) ∧
    (tickDeadlineHalts 32 2 1000 990 = true ↔
      (2 < wrapSub 32 1000 990 ∨ HalfRange 32 ≤ 2 - wrapSub 32 1000 990)) :=
  ⟨by decide, by decide, by decide, by decide, by decide, by decide,
    tickDeadline_elapsed_halts_iff 32 2 1000 990 (by decide) (by decide) (by decide)
      (by decide) (by decide) (by decide)⟩

/-- C3 (as stated, refuted): 32-bit counter 0, alarm `2 ^ 31 - 2`, threshold 2.  The
forward distance `d = 2 ^ 31 - 2` lies strictly between the threshold and `2 ^ 31`, and
the check halts. -/
theorem tickDeadline_future_alarm_reported :
    wrapSub 32 2147483646 0 = 2147483646 ∧ 2 < wrapSub 32 2147483646 0 ∧
      wrapSub 32 2147483646 0 < 2 ^ (32 - 1) ∧
      tickDeadlineHalts 32 2 0 2147483646 = true ∧
      tickDeadlineCheck 32 2 0 2147483646 = .error (.deadlineMissed 0 2147483646) := by
  refine ⟨by decide, by decide, by decide, by decide, by rfl⟩

/-- C3 (amended): for an alarm `d = (A - C) mod 2 ^ w` ticks ahead with
`threshold < d < 2 ^ (w - 1)`, the check does not halt exactly when
`d + threshold < HalfRange`; this covers alarms that wrapped past zero. -/
theorem tickDeadline_future_no_halt_iff (w T C A : Nat) (hw : 1 ≤ w)
    (hC : C < 2 ^ w) (hA : A < 2 ^ w)
    (hTd : T < wrapSub w A C) (hd : wrapSub w A C < 2 ^ (w - 1)) :
    tickDeadlineHalts w T C A = false ↔ wrapSub w A C + T < HalfRange w := by
  have hH := HalfRange_eq w hw
  have h2 := two_pow_pred w hw
  have hT : T < 2 ^ w := by omega
  rw [← Bool.not_eq_true, tickDeadlineHalts_iff, deadlineDelta_unfold w T C A hT hC hA, hH]
  rw [wrapSub_unfold w A C hA hC] at hTd hd ⊢
  split_ifs at hTd hd ⊢ <;> omega

/-- Witness of C3 (amended): the counter is 5 ticks before the wrap, the alarm is at 10. -/
theorem tickDeadline_future_no_halt_iff_witness :
    1 ≤ 32 ∧ 4294967291 < 2 ^ 32 ∧ 10 < 2 ^ 32 ∧
    2 < wrapSub 32 10 4294967291 ∧ wrapSub 32 10 4294967291 < 2 ^ (32 - 1) ∧
    (tickDeadlineHalts 32 2 4294967291 10 = false ↔
      wrapSub 32 10 4294967291 + 2 < HalfRange 32) ∧
    tickDeadlineHalts 32 2 4294967291 10 = false :=
  ⟨by decide, by decide, by decide, by decide, by decide,
    tickDeadline_future_no_halt_iff 32 2 4294967291 10 (by decide) (by decide) (by decide)
      (by decide) (by decide), by decide⟩

end board

namespace board.motor

/-! ## The absolute critical section -/

/-- C4 (as stated, refuted): in a build that defines `NDEBUG` the plain `assert` of the
constructor expands to nothing, so constructing the locker while `PRIMASK` is set
succeeds and executes the disable step, and so does the second of two constructions in a
row. -/
theorem AbsoluteCriticalSectionLocker_ctor_nests_under_NDEBUG :
    get_PRIMASK (⟨true, false, 0⟩ : Cpu) ≠ 0 ∧
      AbsoluteCriticalSectionLockerImpl_.ctor true ⟨⟨true, false, 0⟩, []⟩
        = (.ok {}, ⟨⟨true, false, 0⟩, [Intrinsic.disable_irq]⟩) ∧
      AbsoluteCriticalSectionLockerImpl_.ctor true
          (AbsoluteCriticalSectionLockerImpl_.ctor true ⟨⟨false, false, 0⟩, []⟩).2
        = (.ok {}, ⟨⟨true, false, 0⟩, [Intrinsic.disable_irq, Intrinsic.disable_irq]⟩) := by
  refine ⟨by decide, by rfl, by rfl⟩

/-- C4 (amended): in a build where `assert` is compiled in (`NDEBUG` not defined),
constructing the locker while `PRIMASK` is non-zero fails on the assertion after reading
`PRIMASK`, without executing the disable step and leaving the processor as it was, and
the second of two constructions in a row fails in every state; in every build,
constructing it while `PRIMASK` is zero succeeds and leaves the flag set, the other masks
untouched; in a build that defines `NDEBUG` the constructor checks nothing and always
executes the disable step. -/
theorem AbsoluteCriticalSectionLocker_ctor_no_nesting (NDEBUG : Bool) (m : Exec) :
    (NDEBUG = false → get_PRIMASK m.cpu ≠ 0 →
      AbsoluteCriticalSectionLockerImpl_.ctor NDEBUG m
        = (.error .assertion, ⟨m.cpu, m.executed ++ [Intrinsic.get_PRIMASK]⟩)) ∧
    (get_PRIMASK m.cpu = 0 →
      (AbsoluteCriticalSectionLockerImpl_.ctor NDEBUG m).1 = .ok {} ∧
      (AbsoluteCriticalSectionLockerImpl_.ctor NDEBUG m).2.cpu = disable_irq m.cpu ∧
      (AbsoluteCriticalSectionLockerImpl_.ctor NDEBUG m).2.cpu.PRIMASK = true ∧
      get_PRIMASK (AbsoluteCriticalSectionLockerImpl_.ctor NDEBUG m).2.cpu ≠ 0 ∧
      (AbsoluteCriticalSectionLockerImpl_.ctor NDEBUG m).2.cpu.FAULTMASK = m.cpu.FAULTMASK ∧
      (AbsoluteCriticalSectionLockerImpl_.ctor NDEBUG m).2.cpu.BASEPRI = m.cpu.BASEPRI ∧
      (AbsoluteCriticalSectionLockerImpl_.ctor NDEBUG m).2.executed
        = m.executed ++ (if NDEBUG then [] else [Intrinsic.get_PRIMASK])
            ++ [Intrinsic.disable_irq]) ∧
    (NDEBUG = false →
      (AbsoluteCriticalSectionLockerImpl_.ctor NDEBUG
          (AbsoluteCriticalSectionLockerImpl_.ctor NDEBUG m).2).1 = .error .assertion ∧
      (AbsoluteCriticalSectionLockerImpl_.ctor NDEBUG
          (AbsoluteCriticalSectionLockerImpl_.ctor NDEBUG m).2).2
        = ⟨(AbsoluteCriticalSectionLockerImpl_.ctor NDEBUG m).2.cpu,
            (AbsoluteCriticalSectionLockerImpl_.ctor NDEBUG m).2.executed
              ++ [Intrinsic.get_PRIMASK]⟩) ∧
    (NDEBUG = true →
      AbsoluteCriticalSectionLockerImpl_.ctor NDEBUG m
        = (.ok {}, ⟨disable_irq m.cpu, m.executed ++ [Intrinsic.disable_irq]⟩)) := by
  obtain ⟨⟨pm, fm, bp⟩, ex⟩ := m
  cases NDEBUG <;> cases pm <;>
    simp [AbsoluteCriticalSectionLockerImpl_.ctor, assert, call_get_PRIMASK,
      call_disable_irq, get_PRIMASK, disable_irq]

/-- Witness of C4 (amended): assertions compiled in; a processor with interrupts
disabled, and one with them enabled on which two constructions are run in a row. -/
theorem AbsoluteCriticalSectionLocker_ctor_no_nesting_witness :
    AbsoluteCriticalSectionLockerImpl_.ctor false ⟨⟨true, false, 0⟩, []⟩
        = (.error .assertion, ⟨⟨true, false, 0⟩, [] ++ [Intrinsic.get_PRIMASK]⟩) ∧
      (AbsoluteCriticalSectionLockerImpl_.ctor false ⟨⟨false, false, 0⟩, []⟩).2.cpu.PRIMASK
        = true ∧
      (AbsoluteCriticalSectionLockerImpl_.ctor false
          (AbsoluteCriticalSectionLockerImpl_.ctor false ⟨⟨false, false, 0⟩, []⟩).2).1
        = .error .assertion :=
  ⟨(AbsoluteCriticalSectionLocker_ctor_no_nesting false ⟨⟨true, false, 0⟩, []⟩).1 rfl
      (by decide),
    ((AbsoluteCriticalSectionLocker_ctor_no_nesting false ⟨⟨false, false, 0⟩, []⟩).2.1
      (by decide)).2.2.1,
    ((AbsoluteCriticalSectionLocker_ctor_no_nesting false ⟨⟨false, false, 0⟩, []⟩).2.2.1
      rfl).1⟩

/-- C5: the destructor of the locker clears the global interrupt-disable flag in every
processor state, changes no other mask, and does not depend on the guard, which holds
no state. -/
theorem AbsoluteCriticalSectionLocker_dtor_enables (g : AbsoluteCriticalSectionLockerImpl_)
    (cpu : Cpu) :
    (AbsoluteCriticalSectionLockerImpl_.dtor g cpu).PRIMASK = false ∧
    get_PRIMASK (AbsoluteCriticalSectionLockerImpl_.dtor g cpu) = 0 ∧
    (AbsoluteCriticalSectionLockerImpl_.dtor g cpu).FAULTMASK = cpu.FAULTMASK ∧
    (AbsoluteCriticalSectionLockerImpl_.dtor g cpu).BASEPRI = cpu.BASEPRI ∧
    (∀ pm : Bool, AbsoluteCriticalSectionLockerImpl_.dtor g { cpu with PRIMASK := pm }
      = AbsoluteCriticalSectionLockerImpl_.dtor g cpu) ∧
    (∀ g2 : AbsoluteCriticalSectionLockerImpl_, g2 = g) := by
  simp [AbsoluteCriticalSectionLockerImpl_.dtor, enable_irq, get_PRIMASK]

end board.motor

namespace board

/-! ## The interrupt-mask check of the hook -/

/-- C6: when bit 0 of `PRIMASK` or bit 0 of `FAULTMASK` is set, the hook fails on one of
its two assertions, whatever the counter and the alarm are; when both bits are clear the
assertions pass and the result is that of the tick-deadline block (which is compiled in
when `CH_CFG_ST_TIMEDELTA > 0`). -/
theorem hook_fails_when_interrupts_disabled (w CH_CFG_ST_TIMEDELTA T : Nat) (hw : Hw) :
    ((get_PRIMASK hw.cpu &&& 1 ≠ 0 ∨ get_FAULTMASK hw.cpu &&& 1 ≠ 0) →
      (fastLowLevelSystemIntegrityCheckHook w CH_CFG_ST_TIMEDELTA T hw
          = .error (.assertAlways 1) ∨
        fastLowLevelSystemIntegrityCheckHook w CH_CFG_ST_TIMEDELTA T hw
          = .error (.assertAlways 2)) ∧
      ∀ c a : Nat,
        fastLowLevelSystemIntegrityCheckHook w CH_CFG_ST_TIMEDELTA T
            { hw with st_counter := c, st_alarm := a }
          = fastLowLevelSystemIntegrityCheckHook w CH_CFG_ST_TIMEDELTA T hw) ∧
    ((get_PRIMASK hw.cpu &&& 1 = 0 ∧ get_FAULTMASK hw.cpu &&& 1 = 0) →
      fastLowLevelSystemIntegrityCheckHook w CH_CFG_ST_TIMEDELTA T hw
        = if CH_CFG_ST_TIMEDELTA > 0 then tickDeadlineCheck w T hw.st_counter hw.st_alarm
          else .ok ()) := by
  obtain ⟨⟨pm, fm, bp⟩, c, a⟩ := hw
  cases pm <;> cases fm <;>
    simp [fastLowLevelSystemIntegrityCheckHook, ASSERT_ALWAYS, get_PRIMASK, get_FAULTMASK,
      bind, Except.bind, pure, Except.pure]

/-- Witness of C6: interrupts disabled while the alarm is comfortably in the future, and
interrupts enabled while the alarm was missed. -/
theorem hook_fails_when_interrupts_disabled_witness :
    (get_PRIMASK (⟨true, false, 0⟩ : Cpu) &&& 1 ≠ 0 ∨
        get_FAULTMASK (⟨true, false, 0⟩ : Cpu) &&& 1 ≠ 0) ∧
      (fastLowLevelSystemIntegrityCheckHook 32 2 2 ⟨⟨true, false, 0⟩, 1000, 2000⟩
          = .error (.assertAlways 1) ∨
        fastLowLevelSystemIntegrityCheckHook 32 2 2 ⟨⟨true, false, 0⟩, 1000, 2000⟩
          = .error (.assertAlways 2)) ∧
      fastLowLevelSystemIntegrityCheckHook 32 2 2 ⟨⟨false, false, 0⟩, 1000, 990⟩
        = (if 2 > 0 then tickDeadlineCheck 32 2 1000 990 else .ok ()) :=
  ⟨Or.inl (by decide),
    ((hook_fails_when_interrupts_disabled 32 2 2 ⟨⟨true, false, 0⟩, 1000, 2000⟩).1
      (Or.inl (by decide))).1,
    (hook_fails_when_interrupts_disabled 32 2 2 ⟨⟨false, false, 0⟩, 1000, 990⟩).2
      ⟨by decide, by decide⟩⟩

/-! ## The device signature -/

theorem scan_eq_true_iff (l : List Nat) :
    tryReadDeviceSignature.scan l = true ↔ ∃ x, x ∈ l ∧ x ≠ 0x00 ∧ x ≠ 0xFF := by
  induction l with
  | nil => simp [tryReadDeviceSignature.scan]
  | cons x rest ih =>
    unfold tryReadDeviceSignature.scan
    by_cases hx : x ≠ 0xFF ∧ x ≠ 0x00
    · have : (x != 0xFF && x != 0x00) = true := by simp [hx.1, hx.2]
      rw [if_pos this]
      simp only [true_iff]
      exact ⟨x, List.mem_cons_self _ _, hx.2, hx.1⟩
    · have : ¬ ((x != 0xFF && x != 0x00) = true) := by
        simp only [Bool.and_eq_true, bne_iff_ne]
        exact hx
      rw [if_neg this, ih]
      constructor
      · rintro ⟨y, hy, h0, hF⟩
        exact ⟨y, List.mem_cons_of_mem _ hy, h0, hF⟩
      · rintro ⟨y, hy, h0, hF⟩
        rcases List.mem_cons.mp hy with rfl | hy
        · exact absurd ⟨hF, h0⟩ hx
        · exact ⟨y, hy, h0, hF⟩

/-- C8: `tryReadDeviceSignature` returns true exactly when one of the `size` bytes of the
storage is neither `0x00` nor `0xFF`; so it returns false for the all-`0x00` storage, for
the all-`0xFF` storage and for any mix of the two, and `out_sign` is the copy of the
storage. -/
theorem tryReadDeviceSignature_iff (DeviceSignatureStorage : Nat → Nat) (size : Nat) :
    ((tryReadDeviceSignature DeviceSignatureStorage size).1 = true ↔
      ∃ i, i < size ∧ DeviceSignatureStorage i ≠ 0x00 ∧ DeviceSignatureStorage i ≠ 0xFF) ∧
    ((tryReadDeviceSignature DeviceSignatureStorage size).1 = false ↔
      ∀ i, i < size → DeviceSignatureStorage i = 0x00 ∨ DeviceSignatureStorage i = 0xFF) ∧
    (tryReadDeviceSignature (fun _ => 0x00) size).1 = false ∧
    (tryReadDeviceSignature (fun _ => 0xFF) size).1 = false ∧
    (tryReadDeviceSignature DeviceSignatureStorage size).2
      = (List.range size).map DeviceSignatureStorage := by
  have key : ∀ f : Nat → Nat, (tryReadDeviceSignature f size).1 = true ↔
      ∃ i, i < size ∧ f i ≠ 0x00 ∧ f i ≠ 0xFF := by
    intro f
    unfold tryReadDeviceSignature
    simp only []
    rw [scan_eq_true_iff]
    constructor
    · rintro ⟨x, hx, h0, hF⟩
      obtain ⟨i, hi, rfl⟩ := List.mem_map.mp hx
      exact ⟨i, List.mem_range.mp hi, h0, hF⟩
    · rintro ⟨i, hi, h0, hF⟩
      exact ⟨f i, List.mem_map.mpr ⟨i, List.mem_range.mpr hi, rfl⟩, h0, hF⟩
  refine ⟨key _, ?_, ?_, ?_, rfl⟩
  · rw [← Bool.not_eq_true, key]
    constructor
    · intro h i hi
      by_contra hc
      exact h ⟨i, hi, fun h0 => hc (Or.inl h0), fun hF => hc (Or.inr hF)⟩
    · rintro h ⟨i, hi, h0, hF⟩
      rcases h i hi with h1 | h1
      · exact h0 h1
      · exact hF h1
  · rw [← Bool.not_eq_true, key]
    rintro ⟨i, _, h0, _⟩
    exact h0 rfl
  · rw [← Bool.not_eq_true, key]
    rintro ⟨i, _, _, hF⟩
    exact hF rfl

/-- Witness of C8: eight bytes of storage, all `0xFF` except the byte `0x5A` at index 3,
and eight bytes alternating between `0x00` and `0xFF`. -/
theorem tryReadDeviceSignature_iff_witness :
    (tryReadDeviceSignature (fun i => if i = 3 then 0x5A else 0xFF) 8).1 = true ∧
      (tryReadDeviceSignature (fun i => if i % 2 = 0 then 0x00 else 0xFF) 8).1 = false :=
  ⟨(tryReadDeviceSignature_iff (fun i => if i = 3 then 0x5A else 0xFF) 8).1.mpr
      ⟨3, by decide, by decide, by decide⟩,
    (tryReadDeviceSignature_iff (fun i => if i % 2 = 0 then 0x00 else 0xFF) 8).2.1.mpr
      (by decide)⟩

/-! ## Boot sequence -/

/-- C9: `board::init` halts through `die(result)` exactly when the configuration
initialisation returns a negative result; for every result that is zero or positive it
returns the watchdog handle started with `watchdog_timeout_msec`. -/
theorem init_dies_iff_config_negative (watchdog_timeout_msec : Nat) (config_init : Int) :
    (init watchdog_timeout_msec config_init = .error (.die config_init) ↔ config_init < 0) ∧
    ((∃ e, init watchdog_timeout_msec config_init = .error e) ↔ config_init < 0) ∧
    (0 ≤ config_init →
      init watchdog_timeout_msec config_init = .ok { started := some watchdog_timeout_msec }) := by
  by_cases h : config_init < 0
  · have hn : ¬ (0 ≤ config_init) := by omega
    simp [init, die, Timer.startMSec, bind, Except.bind, pure, Except.pure, h, hn]
  · have hn : 0 ≤ config_init := by omega
    simp [init, die, Timer.startMSec, bind, Except.bind, pure, Except.pure, h, hn]

/-- Witness of C9: the configuration initialisation returns 0 and a timeout of 1000 ms. -/
theorem init_dies_iff_config_negative_witness :
    (0 : Int) ≤ 0 ∧ init 1000 0 = .ok { started := some 1000 } ∧
      init 1000 (-5) = .error (.die (-5)) :=
  ⟨by decide, (init_dies_iff_config_negative 1000 0).2.2 (by decide),
    (init_dies_iff_config_negative 1000 (-5)).1.mpr (by decide)⟩

end board

namespace board.motor

/-! ## Status -/

/-- C7: `isOkay()` is false exactly when `power_ok` is false or `overload` is true or
`fault` is true; it equals `power_ok && !overload && !fault` and does not change with the
temperature, the voltage or the zero offsets. -/
theorem Status_isOkay_iff (s : Status) :
    (s.isOkay = false ↔ (s.power_ok = false ∨ s.overload = true ∨ s.fault = true)) ∧
    s.isOkay = (s.power_ok && !s.overload && !s.fault) ∧
    (∀ (t v : Float) (z : Float × Float),
      ({ s with inverter_temperature := t, inverter_voltage := v,
                phase_current_zero_offset := z } : Status).isOkay = s.isOkay) := by
  obtain ⟨t0, v0, z0, p, o, f⟩ := s
  cases p <;> cases o <;> cases f <;> simp [Status.isOkay]

/-! ## Calibration -/

theorem foldl_handleMainIRQ_flags (samples : List Sample) (s : DriverState) :
    (samples.foldl handleMainIRQ s).active = s.active ∧
    (samples.foldl handleMainIRQ s).calibrating = s.calibrating ∧
    (samples.foldl handleMainIRQ s).active_before_calibration
      = s.active_before_calibration := by
  induction samples generalizing s with
  | nil => simp
  | cons m rest ih =>
    rw [List.foldl_cons]
    obtain ⟨h1, h2, h3⟩ := ih (handleMainIRQ s m)
    rw [h1, h2, h3]
    simp [handleMainIRQ]

/-- C10: for every driver state, a calibration started by `beginCalibration()` is in
progress until it completes, and on completion `isActive()` is what it was when
`beginCalibration()` was called: true if it was true, false if it was false. -/
theorem beginCalibration_restores_activation (active_during : Bool) (samples : List Sample)
    (baseline : Float × Float) (s : DriverState) :
    (isActive s = true →
      isActive (calibrate active_during samples baseline s) = true) ∧
    (isActive s = false →
      isActive (calibrate active_during samples baseline s) = false) ∧
    isCalibrationInProgress (beginCalibration active_during s) = true ∧
    isCalibrationInProgress
      (samples.foldl handleMainIRQ (beginCalibration active_during s)) = true ∧
    isCalibrationInProgress (calibrate active_during samples baseline s) = false := by
  obtain ⟨h1, h2, h3⟩ := foldl_handleMainIRQ_flags samples (beginCalibration active_during s)
  have hc : (samples.foldl handleMainIRQ (beginCalibration active_during s)).calibrating
      = true := by
    rw [h2]
    rfl
  have hb : (samples.foldl handleMainIRQ
      (beginCalibration active_during s)).active_before_calibration = s.active := by
    rw [h3]
    rfl
  have hact : isActive (calibrate active_during samples baseline s) = isActive s := by
    simp [calibrate, completeCalibration, isActive, hc, hb]
  have hdone : isCalibrationInProgress (calibrate active_during samples baseline s)
      = false := by
    simp [calibrate, completeCalibration, isCalibrationInProgress, hc]
  refine ⟨?_, ?_, rfl, hc, hdone⟩
  · intro h
    rw [hact, h]
  · intro h
    rw [hact, h]

/-- Witness of C10: an active driver that is disarmed while two samples are taken. -/
theorem beginCalibration_restores_activation_witness :
    isActive (setActive true ⟨false, false, (0, 0), (0, 0), 0, false⟩) = true ∧
      isActive (calibrate false [⟨(1, 2), 12⟩, ⟨(2, 1), 12⟩] (1, 1)
        (setActive true ⟨false, false, (0, 0), (0, 0), 0, false⟩)) = true :=
  ⟨rfl, (beginCalibration_restores_activation false [⟨(1, 2), 12⟩, ⟨(2, 1), 12⟩] (1, 1)
    (setActive true ⟨false, false, (0, 0), (0, 0), 0, false⟩)).1 rfl⟩

end board.motor

namespace board

/-! ## The tolerance window of the tick-deadline check -/

theorem deadlineDelta_cast (w T C A : Nat) (hC : C < 2 ^ w) :
    ((deadlineDelta w T C A : Nat) : Int)
      = ((A : Int) + (T : Int) - (C : Int)) % ((2 : Int) ^ w) := by
  unfold deadlineDelta alarm_with_offset wrapAdd
  rw [wrapSub_cast w _ C hC]
  have h : (((A + T) % 2 ^ w : Nat) : Int) ≡ (A : Int) + (T : Int) [ZMOD (2 : Int) ^ w] := by
    have h0 := Int.mod_modEq ((A : Int) + (T : Int)) ((2 : Int) ^ w)
    simpa using h0
  exact (h.sub_right (C : Int))

theorem HalfRange_lt (w : Nat) : HalfRange w < 2 ^ w := by
  have hp : 0 < 2 ^ w := Nat.pos_pow_of_pos _ (by decide)
  unfold HalfRange TimeType_max
  omega

theorem deadlineDelta_congr (w T C A C2 A2 : Nat) (hC : C < 2 ^ w) (hC2 : C2 < 2 ^ w)
    (h : (A2 : Int) - (C2 : Int) ≡ (A : Int) - (C : Int) [ZMOD (2 : Int) ^ w]) :
    deadlineDelta w T C2 A2 = deadlineDelta w T C A := by
  have h1 := deadlineDelta_cast w T C A hC
  have h2 := deadlineDelta_cast w T C2 A2 hC2
  have h3 : (A2 : Int) + (T : Int) - (C2 : Int) ≡ (A : Int) + (T : Int) - (C : Int)
      [ZMOD (2 : Int) ^ w] := by
    have := h.add_right (T : Int)
    have e1 : (A2 : Int) - (C2 : Int) + (T : Int) = (A2 : Int) + (T : Int) - (C2 : Int) := by
      ring
    have e2 : (A : Int) - (C : Int) + (T : Int) = (A : Int) + (T : Int) - (C : Int) := by
      ring
    rwa [e1, e2] at this
  have h4 : ((deadlineDelta w T C2 A2 : Nat) : Int) = ((deadlineDelta w T C A : Nat) : Int) := by
    rw [h1, h2]
    exact h3
  exact_mod_cast h4

theorem tickDeadlineHalts_congr (w T C A C2 A2 : Nat)
    (h : deadlineDelta w T C2 A2 = deadlineDelta w T C A) :
    tickDeadlineHalts w T C2 A2 = tickDeadlineHalts w T C A := by
  rw [Bool.eq_iff_iff, tickDeadlineHalts_iff, tickDeadlineHalts_iff, h]

theorem deadlineDelta_eq_of_difference (w T C A : Nat) (hC : C < 2 ^ w) :
    deadlineDelta w T C A = wrapAdd w (wrapSub w A C) T := by
  have h1 := deadlineDelta_cast w T C A hC
  have h2 : ((wrapAdd w (wrapSub w A C) T : Nat) : Int)
      = ((A : Int) + (T : Int) - (C : Int)) % ((2 : Int) ^ w) := by
    unfold wrapAdd
    rw [Int.natCast_mod, Nat.cast_add, wrapSub_cast w A C hC]
    have h3 := (Int.mod_modEq ((A : Int) - (C : Int)) ((2 : Int) ^ w)).add_right (T : Int)
    have e : (A : Int) - (C : Int) + (T : Int) = (A : Int) + (T : Int) - (C : Int) := by ring
    rw [e] at h3
    push_cast
    exact h3
  have h4 : ((deadlineDelta w T C A : Nat) : Int)
      = ((wrapAdd w (wrapSub w A C) T : Nat) : Int) := by rw [h1, h2]
  exact_mod_cast h4

/-- C11: with `T = DetectionThreshold`, `H = HalfRange` and `T < H`, the check does not
halt exactly when the alarm is `C + s` modulo `2 ^ w` for an integer `s` with
`-T ≤ s < H - T`.  The decision is a function of the wrapping difference `A - C`, so it
does not change when the same `k` is added to the counter and the alarm, and an alarm up
to `T` ticks behind the counter is accepted. -/
theorem tickDeadline_tolerance_window (w T C A : Nat) (hTH : T < HalfRange w)
    (hC : C < 2 ^ w) :
    (tickDeadlineHalts w T C A = false ↔
      ∃ s : Int, -(T : Int) ≤ s ∧ s < (HalfRange w : Int) - (T : Int) ∧
        (A : Int) ≡ (C : Int) + s [ZMOD (2 : Int) ^ w]) ∧
    tickDeadlineHalts w T C A = decide (HalfRange w ≤ wrapAdd w (wrapSub w A C) T) ∧
    (∀ k : Nat, tickDeadlineHalts w T ((C + k) % 2 ^ w) ((A + k) % 2 ^ w)
      = tickDeadlineHalts w T C A) ∧
    (∀ e : Nat, e ≤ T → tickDeadlineHalts w T C (wrapSub w C e) = false) := by
  have hH := HalfRange_lt w
  have hpow : ((2 : Int) ^ w) = ((2 ^ w : Nat) : Int) := by simp
  have window : ∀ B : Nat, tickDeadlineHalts w T C B = false ↔
      ∃ s : Int, -(T : Int) ≤ s ∧ s < (HalfRange w : Int) - (T : Int) ∧
        (B : Int) ≡ (C : Int) + s [ZMOD (2 : Int) ^ w] := by
    intro B
    have hcast := deadlineDelta_cast w T C B hC
    have hmod := Int.mod_modEq ((B : Int) + (T : Int) - (C : Int)) ((2 : Int) ^ w)
    rw [← hcast] at hmod
    rw [← Bool.not_eq_true, tickDeadlineHalts_iff]
    constructor
    · intro hlt
      refine ⟨(deadlineDelta w T C B : Int) - (T : Int), by omega, by omega, ?_⟩
      have h1 := (hmod.sub_right (T : Int)).add_left (C : Int)
      have e1 : (C : Int) + ((B : Int) + (T : Int) - (C : Int) - (T : Int)) = (B : Int) := by
        ring
      rw [e1] at h1
      exact h1.symm
    · rintro ⟨s, hs1, hs2, hs⟩
      have h1 : (B : Int) + (T : Int) - (C : Int) ≡ s + (T : Int) [ZMOD (2 : Int) ^ w] := by
        have h2 := (hs.add_right (T : Int)).sub_right (C : Int)
        have e2 : (C : Int) + s + (T : Int) - (C : Int) = s + (T : Int) := by ring
        rwa [e2] at h2
      have h3 : (s + (T : Int)) % ((2 : Int) ^ w) = s + (T : Int) := by
        apply Int.emod_eq_of_lt (by omega)
        rw [hpow]
        omega
      have h4 : ((deadlineDelta w T C B : Nat) : Int) = s + (T : Int) := by
        rw [hcast, ← h3]
        exact h1
      omega
  refine ⟨window A, ?_, ?_, ?_⟩
  · rw [Bool.eq_iff_iff, tickDeadlineHalts_iff, deadlineDelta_eq_of_difference w T C A hC]
    simp
  · intro k
    have hlt : (C + k) % 2 ^ w < 2 ^ w := Nat.mod_lt _ (Nat.pos_pow_of_pos _ (by decide))
    apply tickDeadlineHalts_congr
    apply deadlineDelta_congr w T C A _ _ hC hlt
    have hA := Int.mod_modEq ((A : Int) + (k : Int)) ((2 : Int) ^ w)
    have hCk := Int.mod_modEq ((C : Int) + (k : Int)) ((2 : Int) ^ w)
    have h := hA.sub hCk
    have e : (A : Int) + (k : Int) - ((C : Int) + (k : Int)) = (A : Int) - (C : Int) := by ring
    rw [e] at h
    simpa using h
  · intro e he
    rw [window]
    refine ⟨-(e : Int), by omega, by omega, ?_⟩
    rw [wrapSub_cast w C e (by omega)]
    have h := Int.mod_modEq ((C : Int) - (e : Int)) ((2 : Int) ^ w)
    have e2 : (C : Int) + -(e : Int) = (C : Int) - (e : Int) := by ring
    rw [e2]
    exact h

/-- Witness of C11: 32-bit counter 1000 and threshold 2; the alarm 999, one tick behind
the counter, lies in the window and is accepted. -/
theorem tickDeadline_tolerance_window_witness :
    2 < HalfRange 32 ∧ 1000 < 2 ^ 32 ∧
    (tickDeadlineHalts 32 2 1000 999 = false ↔
      ∃ s : Int, -((2 : Nat) : Int) ≤ s ∧ s < (HalfRange 32 : Int) - ((2 : Nat) : Int) ∧
        ((999 : Nat) : Int) ≡ ((1000 : Nat) : Int) + s [ZMOD (2 : Int) ^ 32]) ∧
    tickDeadlineHalts 32 2 1000 (wrapSub 32 1000 1) = false :=
  ⟨by decide, by decide,
    (tickDeadline_tolerance_window 32 2 1000 999 (by decide) (by decide)).1,
    (tickDeadline_tolerance_window 32 2 1000 999 (by decide) (by decide)).2.2.2 1 (by decide)⟩

end board
